import Mathlib

/-!
Shallow embedding of the result-interpretation and conversation-context logic
of the brain-tumour Telegram bot (`app.py`): the fixed lookup tables, the
detection-interpretation loop of `handle_image`, the per-chat conversation
state, and the prompt/disclaimer construction of `handle_text`.
-/

/-- One raw detection from the object-detection call: a class id (`int(box.cls[0])`)
and a confidence score (never read by the interpretation logic; modelled as `Rat`). -/
structure Detection where
  cls : Nat
  conf : Rat
deriving DecidableEq, Repr

/-- The fixed `CLASS_NAMES` table of `app.py`. -/
def CLASS_NAMES : List (Nat × String) :=
  [(0, "Glioma Tumor"), (1, "Meningioma Tumor"), (2, "No-Tumor"), (3, "Pituitary Tumor")]

/-- The fixed `SEVERITY_MAPPING` table of `app.py`; class 2 (No-Tumor) is absent. -/
def SEVERITY_MAPPING : List (Nat × String) :=
  [(0, "High Severity"), (1, "Low Severity"), (3, "Medium Severity")]

/-- Python `dict.get(key, default)` over an association list. -/
def dictGet (tbl : List (Nat × String)) (k : Nat) (dflt : String) : String :=
  (tbl.lookup k).getD dflt

/-- `CLASS_NAMES.get(class_id, "Unknown Type")`. -/
def className (id : Nat) : String := dictGet CLASS_NAMES id "Unknown Type"

/-- `SEVERITY_MAPPING.get(class_id, "Unknown Severity")`. -/
def severityOf (id : Nat) : String := dictGet SEVERITY_MAPPING id "Unknown Severity"

/-- The display entry `f"{class_name} ({severity})"` appended to `detected_tumors`. -/
def tumorEntry (id : Nat) : String := className id ++ " (" ++ severityOf id ++ ")"

/-- The three accumulators of the interpretation loop in `handle_image`. -/
structure InterpAcc where
  detected_tumors : List String
  detected_tumor_names_for_chatbot : List String
  no_tumor_case_detected : Bool
deriving DecidableEq, Repr

/-- One iteration of the `for box in boxes` loop (lines 114-123 of `app.py`). -/
def interpStep (acc : InterpAcc) (d : Detection) : InterpAcc :=
  let name := className d.cls
  if name = "No-Tumor" then
    { acc with no_tumor_case_detected := true }
  else
    { acc with
      detected_tumors := acc.detected_tumors ++ [tumorEntry d.cls],
      detected_tumor_names_for_chatbot := acc.detected_tumor_names_for_chatbot ++ [name] }

/-- `list(dict.fromkeys(xs))`, with an explicit seen-set accumulator:
keeps the first occurrence of each element, preserving order. -/
def dedupAux (seen : List String) : List String → List String
  | [] => []
  | x :: xs => if x ∈ seen then dedupAux seen xs else x :: dedupAux (x :: seen) xs

/-- `list(dict.fromkeys(xs))` of `app.py` lines 126-127. -/
def dedupFirst (l : List String) : List String := dedupAux [] l

/-- First-occurrence deduplication of a class-id list. -/
def dedupNAux (seen : List Nat) : List Nat → List Nat
  | [] => []
  | x :: xs => if x ∈ seen then dedupNAux seen xs else x :: dedupNAux (x :: seen) xs

/-- First-occurrence deduplication of a detection list by class id. -/
def dedupClsAux (seen : List Nat) : List Detection → List Detection
  | [] => []
  | d :: ds => if d.cls ∈ seen then dedupClsAux seen ds else d :: dedupClsAux (d.cls :: seen) ds

/-- Remove repeated class ids from a detection list, keeping the first
occurrence of each class id. -/
def dedupByCls (l : List Detection) : List Detection := dedupClsAux [] l

/-- The full interpretation of a detection sequence (loop plus deduplication):
produces the deduplicated display list, the deduplicated label list stored for
the chatbot, and the `no_tumor_case_detected` flag. -/
def interpret (dets : List Detection) : InterpAcc :=
  let acc := dets.foldl interpStep ⟨[], [], false⟩
  ⟨dedupFirst acc.detected_tumors,
   dedupFirst acc.detected_tumor_names_for_chatbot,
   acc.no_tumor_case_detected⟩

/-- Caption of the genuine-findings branch (line 135 of `app.py`). -/
def captionFindings (findings : List String) : String :=
  "**Analysis Complete.**\n\nPotential findings:\n" ++
    String.intercalate "\n" (findings.map (fun f => "• " ++ f)) ++
    "\n\nYou can now ask me questions for more information."

/-- Caption of the no-tumor branch (line 137 of `app.py`). -/
def captionNoTumor : String :=
  "Analysis complete. The scan indicates no tumor was found."

/-- Caption of the nothing-recognized branch (line 140 of `app.py`). -/
def captionNothing : String :=
  "Analysis complete. I did not detect any of the conditions I'm trained to recognize in this scan."

/-- The state update and caption choice of `handle_image` lines 130-141: the label
list is stored, then overwritten with `None` on the two no-findings branches.
Returns the final `last_detected_tumors` slot and the reply caption. -/
def imageOutcome (dets : List Detection) : Option (List String) × String :=
  let r := interpret dets
  if r.detected_tumors ≠ [] then
    (some r.detected_tumor_names_for_chatbot, captionFindings r.detected_tumors)
  else if r.no_tumor_case_detected then
    (none, captionNoTumor)
  else
    (none, captionNothing)

/-- Which step of `handle_image` raises an exception, if any. The first four
occur before the state-recording lines 130-141 run; `replyFail` models an
exception raised by the `reply_photo` call on line 143, after the state was
already recorded. All are caught by the `except` on line 147. -/
inductive ImgStepOutcome where
  | ackFail
  | decodeFail
  | inferFail
  | renderFail
  | replyFail
  | success
deriving DecidableEq, Repr

/-- True when the handler reaches the interpretation/state-recording code. -/
def reachesInterpret : ImgStepOutcome → Bool
  | .replyFail => true
  | .success => true
  | _ => false

/-- The generic retry message of line 149 of `app.py`. -/
def errorReply : String :=
  "Sorry, I encountered an error during the analysis. Please try sending the scan again."

/-- `handle_image` as a state transformer on the session's `last_detected_tumors`
slot, parameterised by which step (if any) raises. Returns the new slot value
and the user-visible reply text (caption or error message). -/
def handleImage (step : ImgStepOutcome) (dets : List Detection)
    (st : Option (List String)) : Option (List String) × String :=
  match step with
  | .ackFail => (st, errorReply)
  | .decodeFail => (st, errorReply)
  | .inferFail => (st, errorReply)
  | .renderFail => (st, errorReply)
  | .success => imageOutcome dets
  | .replyFail => ((imageOutcome dets).1, errorReply)

/-- The fixed disclaimer of line 171 of `app.py`. -/
def disclaimer : String :=
  "\n\n**Important Disclaimer:** I am an AI assistant, not a medical professional. This information is for educational purposes only. Please consult a qualified doctor for diagnosis and medical advice."

/-- The fixed fallback of line 182 of `app.py`. -/
def fallbackMessage : String :=
  "I'm having trouble accessing my knowledge base right now. Please try again later."

/-- The default prompt context of line 161 of `app.py`. -/
def genericContext : String := "A user is asking a general question about brain tumors."

/-- The findings-specific prompt context of lines 163-165 of `app.py`. -/
def contextForFindings (l : List String) : String :=
  "A user's brain scan analysis has indicated a potential '" ++
    String.intercalate ", " l ++ "'. The user is now asking a follow-up question."

/-- Lines 161-165: the generic context is overwritten only when the stored
list is truthy, i.e. present and non-empty. -/
def promptContext (last : Option (List String)) : String :=
  match last with
  | some (x :: xs) => contextForFindings (x :: xs)
  | _ => genericContext

/-- The second half of the prompt f-string of lines 167-169 of `app.py`. -/
def promptTail (q : String) : String :=
  "Answer their question in a clear, simple, and reassuring tone. Provide general information only.\n\nUser's Question: '" ++ q ++ "'"

/-- The full prompt of lines 167-169 of `app.py`. -/
def buildPrompt (last : Option (List String)) (q : String) : String :=
  "You are a helpful medical information AI. " ++ promptContext last ++ " " ++ promptTail q

/-- The reply text produced by `handle_text` lines 173-183, as a function of the
hosted call's outcome (`some generatedText`, or `none` for any failure). -/
def respond (last : Option (List String)) (q : String) (r : Option String) : String :=
  match r with
  | some t => t ++ disclaimer
  | none => fallbackMessage ++ disclaimer

/-- `handle_text` as a state transformer: it only reads the session slot. -/
def handleText (st : Option (List String)) (q : String) (r : Option String) :
    Option (List String) × String :=
  (st, respond st q r)

/-- One inbound event of a single chat session. -/
inductive Event where
  | image (step : ImgStepOutcome) (dets : List Detection)
  | text (q : String) (r : Option String)

/-- The session slot after one event. -/
def stepState (st : Option (List String)) : Event → Option (List String)
  | .image step dets => (handleImage step dets st).1
  | .text q r => (handleText st q r).1

/-- The session slot after a sequence of events, in arrival order. -/
def runTrace (events : List Event) (st : Option (List String)) : Option (List String) :=
  events.foldl stepState st

/-- The detections of the most recent image event whose handling reached the
interpretation/state-recording step, if any. -/
def lastAnalysis : List Event → Option (List Detection)
  | [] => none
  | Event.image step dets :: es =>
    match lastAnalysis es with
    | some d => some d
    | none => if reachesInterpret step then some dets else none
  | Event.text _ _ :: es => lastAnalysis es

/-- Whether a class id resolves to the reserved `No-Tumor` label. -/
def isNoTumor (id : Nat) : Bool := className id == "No-Tumor"

/-- The class ids that produce genuine findings (everything not resolving to
the reserved label). -/
def genuineIds (ids : List Nat) : List Nat := ids.filter (fun i => !(isNoTumor i))

/-- Class-id-level restatement of the interpretation: everything `interpret`
produces is a function of the class ids alone. -/
def interpretN (ids : List Nat) : InterpAcc :=
  ⟨dedupFirst ((genuineIds ids).map tumorEntry),
   dedupFirst ((genuineIds ids).map className),
   ids.any isNoTumor⟩

lemma foldl_interpStep_eq (dets : List Detection) : ∀ acc : InterpAcc,
    dets.foldl interpStep acc =
      ⟨acc.detected_tumors ++ (genuineIds (dets.map (·.cls))).map tumorEntry,
       acc.detected_tumor_names_for_chatbot ++ (genuineIds (dets.map (·.cls))).map className,
       acc.no_tumor_case_detected || (dets.map (·.cls)).any isNoTumor⟩ := by
  induction dets with
  | nil => intro acc; simp [genuineIds]
  | cons d ds ih =>
    intro acc
    by_cases h : className d.cls = "No-Tumor"
    · have hb : isNoTumor d.cls = true := by simp [isNoTumor, h]
      simp [interpStep, h, ih, genuineIds, hb]
    · have hb : isNoTumor d.cls = false := by simp [isNoTumor, h]
      simp [interpStep, h, ih, genuineIds, hb]

lemma interpret_eq_interpretN (dets : List Detection) :
    interpret dets = interpretN (dets.map (·.cls)) := by
  simp [interpret, interpretN, foldl_interpStep_eq]

lemma className_spec (id : Nat) :
    className id =
      if id = 0 then "Glioma Tumor"
      else if id = 1 then "Meningioma Tumor"
      else if id = 2 then "No-Tumor"
      else if id = 3 then "Pituitary Tumor"
      else "Unknown Type" := by
  by_cases h0 : id = 0
  · subst h0; rfl
  by_cases h1 : id = 1
  · subst h1; rfl
  by_cases h2 : id = 2
  · subst h2; rfl
  by_cases h3 : id = 3
  · subst h3; rfl
  have e0 : (id == 0) = false := by simp [h0]
  have e1 : (id == 1) = false := by simp [h1]
  have e2 : (id == 2) = false := by simp [h2]
  have e3 : (id == 3) = false := by simp [h3]
  simp [className, dictGet, CLASS_NAMES, List.lookup, e0, e1, e2, e3, h0, h1, h2, h3]

lemma severityOf_spec (id : Nat) :
    severityOf id =
      if id = 0 then "High Severity"
      else if id = 1 then "Low Severity"
      else if id = 3 then "Medium Severity"
      else "Unknown Severity" := by
  by_cases h0 : id = 0
  · subst h0; rfl
  by_cases h1 : id = 1
  · subst h1; rfl
  by_cases h3 : id = 3
  · subst h3; rfl
  have e0 : (id == 0) = false := by simp [h0]
  have e1 : (id == 1) = false := by simp [h1]
  have e3 : (id == 3) = false := by simp [h3]
  simp [severityOf, dictGet, SEVERITY_MAPPING, List.lookup, e0, e1, e3, h0, h1, h3]

lemma className_noTumor_iff (id : Nat) : className id = "No-Tumor" ↔ id = 2 := by
  rw [className_spec]
  by_cases h0 : id = 0
  · subst h0; simp
  by_cases h1 : id = 1
  · subst h1; simp
  by_cases h2 : id = 2
  · subst h2; simp
  by_cases h3 : id = 3
  · subst h3; simp
  simp [h0, h1, h2, h3]

lemma isNoTumor_iff (id : Nat) : isNoTumor id = true ↔ id = 2 := by
  simp [isNoTumor, className_noTumor_iff]

lemma map_cls_dedupClsAux (l : List Detection) : ∀ ks : List Nat,
    (dedupClsAux ks l).map (·.cls) = dedupNAux ks (l.map (·.cls)) := by
  induction l with
  | nil => intro ks; rfl
  | cons d ds ih =>
    intro ks
    by_cases h : d.cls ∈ ks
    · simp [dedupClsAux, dedupNAux, h, ih]
    · simp [dedupClsAux, dedupNAux, h, ih]

lemma dedupAux_map_filter (f : Nat → String) (g : Nat → Bool) (ids : List Nat) :
    ∀ (ks : List Nat) (seen : List String),
      (∀ c ∈ ks, g c = true → f c ∈ seen) →
      dedupAux seen (((dedupNAux ks ids).filter g).map f) =
        dedupAux seen ((ids.filter g).map f) := by
  induction ids with
  | nil => intro ks seen _; rfl
  | cons x xs ih =>
    intro ks seen hks
    by_cases hx : x ∈ ks
    · rw [show dedupNAux ks (x :: xs) = dedupNAux ks xs by simp [dedupNAux, hx]]
      by_cases hg : g x = true
      · have hf : f x ∈ seen := hks x hx hg
        rw [show ((x :: xs).filter g).map f = f x :: (xs.filter g).map f by
              simp [List.filter_cons, hg]]
        rw [show dedupAux seen (f x :: (xs.filter g).map f) =
              dedupAux seen ((xs.filter g).map f) by simp [dedupAux, hf]]
        exact ih ks seen hks
      · rw [show ((x :: xs).filter g).map f = (xs.filter g).map f by
              simp [List.filter_cons, hg]]
        exact ih ks seen hks
    · rw [show dedupNAux ks (x :: xs) = x :: dedupNAux (x :: ks) xs by
            simp [dedupNAux, hx]]
      by_cases hg : g x = true
      · rw [show ((x :: dedupNAux (x :: ks) xs).filter g).map f =
              f x :: ((dedupNAux (x :: ks) xs).filter g).map f by
              simp [List.filter_cons, hg]]
        rw [show ((x :: xs).filter g).map f = f x :: (xs.filter g).map f by
              simp [List.filter_cons, hg]]
        by_cases hf : f x ∈ seen
        · rw [show dedupAux seen (f x :: ((dedupNAux (x :: ks) xs).filter g).map f) =
                dedupAux seen (((dedupNAux (x :: ks) xs).filter g).map f) by
                simp [dedupAux, hf]]
          rw [show dedupAux seen (f x :: (xs.filter g).map f) =
                dedupAux seen ((xs.filter g).map f) by simp [dedupAux, hf]]
          refine ih (x :: ks) seen ?_
          intro c hc hgc
          rcases List.mem_cons.mp hc with rfl | hc'
          · exact hf
          · exact hks c hc' hgc
        · rw [show dedupAux seen (f x :: ((dedupNAux (x :: ks) xs).filter g).map f) =
                f x :: dedupAux (f x :: seen) (((dedupNAux (x :: ks) xs).filter g).map f) by
                simp [dedupAux, hf]]
          rw [show dedupAux seen (f x :: (xs.filter g).map f) =
                f x :: dedupAux (f x :: seen) ((xs.filter g).map f) by simp [dedupAux, hf]]
          congr 1
          refine ih (x :: ks) (f x :: seen) ?_
          intro c hc hgc
          rcases List.mem_cons.mp hc with rfl | hc'
          · exact List.mem_cons_self _ _
          · exact List.mem_cons_of_mem _ (hks c hc' hgc)
      · rw [show ((x :: dedupNAux (x :: ks) xs).filter g).map f =
              ((dedupNAux (x :: ks) xs).filter g).map f by simp [List.filter_cons, hg]]
        rw [show ((x :: xs).filter g).map f = (xs.filter g).map f by
              simp [List.filter_cons, hg]]
        refine ih (x :: ks) seen ?_
        intro c hc hgc
        rcases List.mem_cons.mp hc with rfl | hc'
        · exact absurd hgc hg
        · exact hks c hc' hgc

lemma mem_of_mem_dedupNAux (ids : List Nat) : ∀ (ks : List Nat) (x : Nat),
    x ∈ dedupNAux ks ids → x ∈ ids := by
  induction ids with
  | nil => intro ks x h; simp [dedupNAux] at h
  | cons y ys ih =>
    intro ks x h
    by_cases hy : y ∈ ks
    · rw [show dedupNAux ks (y :: ys) = dedupNAux ks ys by simp [dedupNAux, hy]] at h
      exact List.mem_cons_of_mem _ (ih ks x h)
    · rw [show dedupNAux ks (y :: ys) = y :: dedupNAux (y :: ks) ys by
            simp [dedupNAux, hy]] at h
      rcases List.mem_cons.mp h with rfl | h'
      · exact List.mem_cons_self _ _
      · exact List.mem_cons_of_mem _ (ih (y :: ks) x h')

lemma any_dedupNAux (p : Nat → Bool) (ids : List Nat) : ∀ ks : List Nat,
    ids.any p = true → (∃ c ∈ ks, p c = true) ∨ (dedupNAux ks ids).any p = true := by
  induction ids with
  | nil => intro ks h; simp at h
  | cons y ys ih =>
    intro ks h
    by_cases hy : y ∈ ks
    · rw [show dedupNAux ks (y :: ys) = dedupNAux ks ys by simp [dedupNAux, hy]]
      cases hp : p y with
      | true => exact Or.inl ⟨y, hy, hp⟩
      | false =>
        have h' : ys.any p = true := by simpa [List.any_cons, hp] using h
        exact ih ks h'
    · rw [show dedupNAux ks (y :: ys) = y :: dedupNAux (y :: ks) ys by
            simp [dedupNAux, hy]]
      cases hp : p y with
      | true => exact Or.inr (by simp [List.any_cons, hp])
      | false =>
        have h' : ys.any p = true := by simpa [List.any_cons, hp] using h
        rcases ih (y :: ks) h' with ⟨c, hc, hpc⟩ | hany
        · rcases List.mem_cons.mp hc with rfl | hc'
          · rw [hp] at hpc; cases hpc
          · exact Or.inl ⟨c, hc', hpc⟩
        · exact Or.inr (by simp [List.any_cons, hany])

lemma any_dedupN (p : Nat → Bool) (ids : List Nat) :
    (dedupNAux [] ids).any p = ids.any p := by
  cases h : ids.any p
  · cases h2 : (dedupNAux [] ids).any p
    · rfl
    · exfalso
      rcases List.any_eq_true.mp h2 with ⟨x, hx, hpx⟩
      have h3 := List.any_eq_true.mpr ⟨x, mem_of_mem_dedupNAux ids [] x hx, hpx⟩
      rw [h] at h3
      cases h3
  · rcases any_dedupNAux p ids [] h with ⟨c, hc, _⟩ | h2
    · simp at hc
    · exact h2

lemma interpretN_dedupN (ids : List Nat) :
    interpretN (dedupNAux [] ids) = interpretN ids := by
  have h1 := dedupAux_map_filter tumorEntry (fun i => !(isNoTumor i)) ids [] [] (by simp)
  have h2 := dedupAux_map_filter className (fun i => !(isNoTumor i)) ids [] [] (by simp)
  have h3 := any_dedupN isNoTumor ids
  simp only [interpretN, genuineIds, dedupFirst]
  rw [h1, h2, h3]

lemma isNoTumor_eq (i : Nat) : isNoTumor i = (i == 2) := by
  by_cases h : i = 2
  · subst h; decide
  · have h1 : isNoTumor i = false := by
      rw [← Bool.not_eq_true]
      simp [isNoTumor_iff, h]
    have h2 : (i == 2) = false := by simp [h]
    rw [h1, h2]

lemma genuine_map (f : Nat → String) (dets : List Detection) :
    (genuineIds (dets.map (·.cls))).map f =
      (dets.filter (fun d => d.cls != 2)).map (fun d => f d.cls) := by
  unfold genuineIds
  rw [show (fun i => !(isNoTumor i)) = (fun i : Nat => !(i == 2)) from
        funext (fun i => by rw [isNoTumor_eq])]
  rw [List.map_filter]
  rw [List.map_map]
  rfl

lemma dedupFirst_eq_nil_iff (l : List String) : dedupFirst l = [] ↔ l = [] := by
  cases l with
  | nil => simp [dedupFirst, dedupAux]
  | cons x xs => simp [dedupFirst, dedupAux]

lemma interpret_tumors (dets : List Detection) :
    (interpret dets).detected_tumors =
      dedupFirst ((genuineIds (dets.map (·.cls))).map tumorEntry) := by
  rw [interpret_eq_interpretN]; rfl

lemma interpret_names (dets : List Detection) :
    (interpret dets).detected_tumor_names_for_chatbot =
      dedupFirst ((genuineIds (dets.map (·.cls))).map className) := by
  rw [interpret_eq_interpretN]; rfl

lemma interpret_flag_iff (dets : List Detection) :
    (interpret dets).no_tumor_case_detected = true ↔ ∃ d ∈ dets, d.cls = 2 := by
  rw [interpret_eq_interpretN]
  simp [interpretN, List.any_map, List.any_eq_true, Function.comp, isNoTumor_iff]

lemma interpret_names_ne_nil (dets : List Detection)
    (h : (interpret dets).detected_tumors ≠ []) :
    (interpret dets).detected_tumor_names_for_chatbot ≠ [] := by
  rw [interpret_tumors] at h
  rw [interpret_names]
  intro hn
  apply h
  have hgs : (genuineIds (dets.map (·.cls))).map className = [] :=
    (dedupFirst_eq_nil_iff _).mp hn
  have : genuineIds (dets.map (·.cls)) = [] := by simpa using hgs
  simp [this, dedupFirst, dedupAux]

lemma handleImage_state (step : ImgStepOutcome) (dets : List Detection)
    (st : Option (List String)) :
    (handleImage step dets st).1 =
      if reachesInterpret step then (imageOutcome dets).1 else st := by
  cases step <;> rfl

lemma runTrace_char (events : List Event) : ∀ st0 : Option (List String),
    runTrace events st0 =
      match lastAnalysis events with
      | some dets => (imageOutcome dets).1
      | none => st0 := by
  induction events with
  | nil => intro st0; rfl
  | cons e es ih =>
    intro st0
    cases e with
    | text q r =>
      show runTrace es st0 = _
      rw [ih st0]
      rfl
    | image step dets =>
      show runTrace es ((handleImage step dets st0).1) = _
      rw [ih ((handleImage step dets st0).1)]
      cases h : lastAnalysis es with
      | some d => simp [lastAnalysis, h]
      | none =>
        rw [handleImage_state]
        cases hr : reachesInterpret step <;> simp [lastAnalysis, h, hr]

lemma imageOutcome_some (dets : List Detection) (l : List String)
    (h : (imageOutcome dets).1 = some l) :
    l ≠ [] ∧ l = dedupFirst ((genuineIds (dets.map (·.cls))).map className) := by
  by_cases ht : (interpret dets).detected_tumors ≠ []
  · have he : (imageOutcome dets).1 = some ((interpret dets).detected_tumor_names_for_chatbot) := by
      simp [imageOutcome, ht]
    rw [he] at h
    have hl : l = (interpret dets).detected_tumor_names_for_chatbot := (Option.some.injEq _ _ ▸ h).symm
    subst hl
    exact ⟨interpret_names_ne_nil dets ht, interpret_names dets⟩
  · exfalso
    by_cases hf : (interpret dets).no_tumor_case_detected
    · have : (imageOutcome dets).1 = none := by simp [imageOutcome, ht, hf]
      rw [this] at h; cases h
    · have : (imageOutcome dets).1 = none := by simp [imageOutcome, ht, hf]
      rw [this] at h; cases h

/-- C1: for every detection sequence containing at least one non-reserved class
id together with the reserved no-abnormality id (class 2), `interpret` yields
only the non-reserved labels with their mapped severities, deduplicated, the
`no_tumor_case_detected` flag is true, and the display/state follow the
genuine-finding branch: the stored state is the deduplicated genuine label
list and the reserved class contributes nothing to display or state. -/
theorem interpret_genuine_with_reserved (dets : List Detection)
    (h1 : ∃ d ∈ dets, d.cls ≠ 2) (h2 : ∃ d ∈ dets, d.cls = 2) :
    (interpret dets).no_tumor_case_detected = true ∧
    (interpret dets).detected_tumors =
      dedupFirst ((dets.filter (fun d => d.cls != 2)).map (fun d => tumorEntry d.cls)) ∧
    (interpret dets).detected_tumor_names_for_chatbot =
      dedupFirst ((dets.filter (fun d => d.cls != 2)).map (fun d => className d.cls)) ∧
    (interpret dets).detected_tumors ≠ [] ∧
    imageOutcome dets =
      (some ((interpret dets).detected_tumor_names_for_chatbot),
       captionFindings ((interpret dets).detected_tumors)) := by
  have flag := (interpret_flag_iff dets).mpr h2
  have ht : (interpret dets).detected_tumors =
      dedupFirst ((dets.filter (fun d => d.cls != 2)).map (fun d => tumorEntry d.cls)) := by
    rw [interpret_tumors, genuine_map]
  have hn : (interpret dets).detected_tumor_names_for_chatbot =
      dedupFirst ((dets.filter (fun d => d.cls != 2)).map (fun d => className d.cls)) := by
    rw [interpret_names, genuine_map]
  have hne : (interpret dets).detected_tumors ≠ [] := by
    rw [ht]
    intro hnil
    have hmap := (dedupFirst_eq_nil_iff _).mp hnil
    rcases h1 with ⟨d, hd, hd2⟩
    have hfil : dets.filter (fun d => d.cls != 2) = [] := by simpa using hmap
    have hmem : d ∈ dets.filter (fun d => d.cls != 2) :=
      List.mem_filter.mpr ⟨hd, by simp [hd2]⟩
    rw [hfil] at hmem
    cases hmem
  refine ⟨flag, ht, hn, hne, ?_⟩
  simp [imageOutcome, hne]

/-- Witness for C1 at the spec's example detections
`[{class_id 0, conf 0.9}, {class_id 0, conf 0.5}, {class_id 2, conf 0.99}]`. -/
theorem interpret_genuine_with_reserved_witness :
    (interpret [⟨0, 9/10⟩, ⟨0, 1/2⟩, ⟨2, 99/100⟩]).no_tumor_case_detected = true ∧
    imageOutcome [⟨0, 9/10⟩, ⟨0, 1/2⟩, ⟨2, 99/100⟩] =
      (some ["Glioma Tumor"], captionFindings ["Glioma Tumor (High Severity)"]) ∧
    (interpret [⟨0, 9/10⟩, ⟨0, 1/2⟩, ⟨2, 99/100⟩]).detected_tumor_names_for_chatbot =
      ["Glioma Tumor"] := by
  have h := interpret_genuine_with_reserved [⟨0, 9/10⟩, ⟨0, 1/2⟩, ⟨2, 99/100⟩]
    ⟨⟨0, 9/10⟩, by simp, by decide⟩ ⟨⟨2, 99/100⟩, by simp, rfl⟩
  refine ⟨h.1, ?_, by decide⟩
  rw [h.2.2.2.2]
  decide

/-- C2: a non-empty detection sequence consisting only of the reserved class id
yields an empty finding set, the flag set, an emptied state and the no-tumor
caption; the empty sequence yields an empty finding set, a clear flag, an
emptied state and the nothing-recognized caption. -/
theorem interpret_reserved_only_and_empty (dets : List Detection) :
    (dets ≠ [] → (∀ d ∈ dets, d.cls = 2) →
      interpret dets = ⟨[], [], true⟩ ∧ imageOutcome dets = (none, captionNoTumor)) ∧
    interpret ([] : List Detection) = ⟨[], [], false⟩ ∧
    imageOutcome ([] : List Detection) = (none, captionNothing) := by
  refine ⟨?_, by decide, by decide⟩
  intro hne hall
  have hflag : (interpret dets).no_tumor_case_detected = true := by
    rcases List.exists_mem_of_ne_nil dets hne with ⟨d, hd⟩
    exact (interpret_flag_iff dets).mpr ⟨d, hd, hall d hd⟩
  have hfilter : dets.filter (fun d => d.cls != 2) = [] := by
    rw [List.filter_eq_nil]
    intro d hd
    simp [hall d hd]
  have ht : (interpret dets).detected_tumors = [] := by
    rw [interpret_tumors, genuine_map, hfilter]
    rfl
  have hn : (interpret dets).detected_tumor_names_for_chatbot = [] := by
    rw [interpret_names, genuine_map, hfilter]
    rfl
  constructor
  · have heta : interpret dets =
        ⟨(interpret dets).detected_tumors,
         (interpret dets).detected_tumor_names_for_chatbot,
         (interpret dets).no_tumor_case_detected⟩ := rfl
    rw [heta, ht, hn, hflag]
  · simp [imageOutcome, ht, hflag]

/-- Witness for C2 at the spec's example `[{class_id 2, conf 0.95}]`. -/
theorem interpret_reserved_only_witness :
    interpret [⟨2, 19/20⟩] = ⟨[], [], true⟩ ∧
    imageOutcome [⟨2, 19/20⟩] = (none, captionNoTumor) :=
  (interpret_reserved_only_and_empty [⟨2, 19/20⟩]).1 (by decide) (by decide)

/-- C7: deduplication is idempotent — interpreting a detection sequence with
repeated class ids gives the same finding set, flag, caption and stored state
as interpreting the sequence with duplicate class ids removed first (first
occurrence kept). -/
theorem interpret_dedup_idempotent (dets : List Detection) :
    interpret (dedupByCls dets) = interpret dets ∧
    imageOutcome (dedupByCls dets) = imageOutcome dets := by
  have h : interpret (dedupByCls dets) = interpret dets := by
    rw [interpret_eq_interpretN, interpret_eq_interpretN]
    simp only [dedupByCls]
    rw [show (dedupClsAux [] dets).map (·.cls) = dedupNAux [] (dets.map (·.cls)) from
          map_cls_dedupClsAux dets []]
    exact interpretN_dedupN _
  exact ⟨h, by simp [imageOutcome, h]⟩

/-- C9: confidence-independence — two detection sequences with the same class
ids position-wise produce identical interpretation results, captions, state
updates and image-handler behaviour, whatever their confidence scores. -/
theorem interpret_confidence_independent (d1 d2 : List Detection)
    (h : d1.map (·.cls) = d2.map (·.cls)) :
    interpret d1 = interpret d2 ∧
    imageOutcome d1 = imageOutcome d2 ∧
    ∀ (step : ImgStepOutcome) (st : Option (List String)),
      handleImage step d1 st = handleImage step d2 st := by
  have hi : interpret d1 = interpret d2 := by
    rw [interpret_eq_interpretN, interpret_eq_interpretN, h]
  have ho : imageOutcome d1 = imageOutcome d2 := by
    simp [imageOutcome, hi]
  exact ⟨hi, ho, fun step st => by cases step <;> simp [handleImage, ho]⟩

/-- Witness for C9: the same class id with different confidences. -/
theorem interpret_confidence_independent_witness :
    interpret [⟨0, 9/10⟩] = interpret [⟨0, 1/2⟩] ∧
    imageOutcome [⟨0, 9/10⟩] = imageOutcome [⟨0, 1/2⟩] :=
  ⟨(interpret_confidence_independent [⟨0, 9/10⟩] [⟨0, 1/2⟩] rfl).1,
   (interpret_confidence_independent [⟨0, 9/10⟩] [⟨0, 1/2⟩] rfl).2.1⟩

/-- C10: the `no_tumor_case_detected` flag is true iff some detection resolves
via the class-name table to the reserved `No-Tumor` label, which happens
exactly for class id 2; unknown ids and the other known ids never set it. -/
theorem no_abnormality_flag_iff (dets : List Detection) :
    ((interpret dets).no_tumor_case_detected = true ↔ ∃ d ∈ dets, d.cls = 2) ∧
    (∀ id : Nat, className id = "No-Tumor" ↔ id = 2) :=
  ⟨interpret_flag_iff dets, className_noTumor_iff⟩

/-- Witness for C10: class id 2 sets the flag, an unknown id does not. -/
theorem no_abnormality_flag_iff_witness :
    (interpret [⟨2, 1⟩]).no_tumor_case_detected = true ∧
    (interpret [⟨7, 1⟩]).no_tumor_case_detected = false :=
  ⟨(no_abnormality_flag_iff [⟨2, 1⟩]).1.mpr ⟨⟨2, 1⟩, by simp, rfl⟩, by decide⟩

/-- C3: invariant over all event sequences of one session — the stored
`last_detected_tumors` slot always equals the wholesale result of the most
recent image analysis (its deduplicated genuine label list when findings
exist), image analysis overwrites it entirely on every run, and text handling
reads it without mutating it. -/
theorem conversation_state_invariant (events : List Event) (st0 : Option (List String)) :
    runTrace events st0 =
      (match lastAnalysis events with
       | some dets => (imageOutcome dets).1
       | none => st0) ∧
    (∀ (dets : List Detection) (l : List String), (imageOutcome dets).1 = some l →
      l ≠ [] ∧ l = dedupFirst ((genuineIds (dets.map (·.cls))).map className)) ∧
    (∀ (st : Option (List String)) (q : String) (r : Option String),
      (handleText st q r).1 = st) :=
  ⟨runTrace_char events st0, fun dets l h => imageOutcome_some dets l h, fun _ _ _ => rfl⟩

/-- Witness for C3: one successful analysis of a Meningioma detection. -/
theorem conversation_state_invariant_witness :
    runTrace [Event.image ImgStepOutcome.success [⟨1, 1⟩]] none = some ["Meningioma Tumor"] ∧
    ["Meningioma Tumor"] ≠ [] ∧
    ["Meningioma Tumor"] =
      dedupFirst ((genuineIds ([(⟨1, 1⟩ : Detection)].map (·.cls))).map className) := by
  have h := conversation_state_invariant [Event.image ImgStepOutcome.success [⟨1, 1⟩]] none
  have h2 := h.2.1 [⟨1, 1⟩] ["Meningioma Tumor"] (by decide)
  refine ⟨?_, h2.1, h2.2⟩
  rw [h.1]
  decide

/-- C4: `respond` always returns a string ending in the exact fixed disclaimer
in both outcomes of the hosted call — the generated text plus disclaimer on
success, the fixed fallback plus disclaimer on any failure — and never
propagates the raw error. -/
theorem respond_ends_with_disclaimer (st : Option (List String)) (q : String) (r : Option String) :
    (∃ p, respond st q r = p ++ disclaimer) ∧
    respond st q none = fallbackMessage ++ disclaimer ∧
    (∀ t, respond st q (some t) = t ++ disclaimer) := by
  refine ⟨?_, rfl, fun t => rfl⟩
  cases r with
  | none => exact ⟨fallbackMessage, rfl⟩
  | some t => exact ⟨t, rfl⟩

/-- C5 counterexample: a detection with the unknown class id 5 is appended with
the severity-table default "Unknown Severity" — its display entry carries a
severity suffix, so unresolvable ids do not yield a severity-less finding. -/
theorem unknown_class_severity_counterexample :
    (interpret [⟨5, 1/2⟩]).detected_tumors = ["Unknown Type (Unknown Severity)"] ∧
    (interpret [⟨5, 1/2⟩]).detected_tumor_names_for_chatbot = ["Unknown Type"] ∧
    SEVERITY_MAPPING.lookup 5 = none ∧
    severityOf 5 = "Unknown Severity" ∧
    tumorEntry 5 ≠ className 5 := by decide

/-- C5 (amended): every detection whose class id is absent from the fixed
class-name table resolves to the sentinel label "Unknown Type" with the
severity-table default "Unknown Severity", and is appended to the finding
set as a genuine (non-reserved) finding. -/
theorem unknown_class_appended_as_genuine (id : Nat) (conf : Rat) (dets : List Detection)
    (h : CLASS_NAMES.lookup id = none) :
    className id = "Unknown Type" ∧
    severityOf id = "Unknown Severity" ∧
    tumorEntry id = "Unknown Type (Unknown Severity)" ∧
    (dets ++ [(⟨id, conf⟩ : Detection)]).foldl interpStep ⟨[], [], false⟩ =
      ⟨(dets.foldl interpStep ⟨[], [], false⟩).detected_tumors ++
          ["Unknown Type (Unknown Severity)"],
       (dets.foldl interpStep ⟨[], [], false⟩).detected_tumor_names_for_chatbot ++
          ["Unknown Type"],
       (dets.foldl interpStep ⟨[], [], false⟩).no_tumor_case_detected⟩ := by
  have h0 : id ≠ 0 := by intro he; subst he; simp [CLASS_NAMES, List.lookup] at h
  have h1 : id ≠ 1 := by intro he; subst he; simp [CLASS_NAMES, List.lookup] at h
  have h2 : id ≠ 2 := by intro he; subst he; simp [CLASS_NAMES, List.lookup] at h
  have h3 : id ≠ 3 := by intro he; subst he; simp [CLASS_NAMES, List.lookup] at h
  have hcn : className id = "Unknown Type" := by
    rw [className_spec]; simp [h0, h1, h2, h3]
  have hsv : severityOf id = "Unknown Severity" := by
    rw [severityOf_spec]; simp [h0, h1, h3]
  have hte : tumorEntry id = "Unknown Type (Unknown Severity)" := by
    rw [tumorEntry, hcn, hsv]
    decide
  have hnn : ("Unknown Type" : String) ≠ "No-Tumor" := by decide
  refine ⟨hcn, hsv, hte, ?_⟩
  rw [List.foldl_append]
  show interpStep (dets.foldl interpStep ⟨[], [], false⟩) (⟨id, conf⟩ : Detection) = _
  simp [interpStep, hcn, hte, hnn]

/-- Witness for C5 (amended) at class id 5. -/
theorem unknown_class_appended_witness :
    CLASS_NAMES.lookup 5 = none ∧
    className 5 = "Unknown Type" ∧
    severityOf 5 = "Unknown Severity" :=
  ⟨by decide,
   (unknown_class_appended_as_genuine 5 (1/2) [] (by decide)).1,
   (unknown_class_appended_as_genuine 5 (1/2) [] (by decide)).2.1⟩

/-- C6 counterexample: when the reply step raises, the error is caught and the
retry message is produced, but the session state has already been overwritten
by the analysis, so it no longer equals its value from before the event. -/
theorem handle_image_error_state_counterexample :
    handleImage ImgStepOutcome.replyFail [⟨0, 1⟩] (some ["Pituitary Tumor"]) =
      (some ["Glioma Tumor"], errorReply) ∧
    (handleImage ImgStepOutcome.replyFail [⟨0, 1⟩] (some ["Pituitary Tumor"])).1 ≠
      some ["Pituitary Tumor"] := by decide

/-- C6 (amended): an error raised before the state-recording step (ack send,
image decode, inference, rendering) is caught at the handler boundary, the
user receives the generic retry message, and the session state is left
untouched; an error at the reply step is also caught and produces the retry
message, but the state keeps the value just recorded by the current
analysis. -/
theorem handle_image_error_paths (dets : List Detection) (st : Option (List String)) :
    handleImage ImgStepOutcome.ackFail dets st = (st, errorReply) ∧
    handleImage ImgStepOutcome.decodeFail dets st = (st, errorReply) ∧
    handleImage ImgStepOutcome.inferFail dets st = (st, errorReply) ∧
    handleImage ImgStepOutcome.renderFail dets st = (st, errorReply) ∧
    handleImage ImgStepOutcome.replyFail dets st = ((imageOutcome dets).1, errorReply) :=
  ⟨rfl, rfl, rfl, rfl, rfl⟩

/-- C8: the prompt built for a text event is the fixed header, then the context
preamble — referencing the comma-joined stored label list when the state is
non-empty, the generic brain-tumor framing when it is empty or absent — then
the fixed answer-clearly-simply-reassuringly instruction and the literal user
question; in particular the joined label list and the question both occur
verbatim inside the prompt. -/
theorem prompt_preamble_and_question (q x : String) (xs : List String) :
    buildPrompt (some (x :: xs)) q =
      "You are a helpful medical information AI. " ++ contextForFindings (x :: xs) ++ " " ++
        promptTail q ∧
    contextForFindings (x :: xs) =
      "A user's brain scan analysis has indicated a potential '" ++
        String.intercalate ", " (x :: xs) ++
        "'. The user is now asking a follow-up question." ∧
    (∃ a b, buildPrompt (some (x :: xs)) q = a ++ String.intercalate ", " (x :: xs) ++ b) ∧
    buildPrompt none q =
      "You are a helpful medical information AI. " ++ genericContext ++ " " ++ promptTail q ∧
    buildPrompt (some []) q = buildPrompt none q ∧
    promptTail q =
      "Answer their question in a clear, simple, and reassuring tone. Provide general information only.\n\nUser's Question: '" ++
        q ++ "'" ∧
    (∃ c d, buildPrompt (some (x :: xs)) q = c ++ q ++ d) := by
  refine ⟨rfl, rfl, ?_, rfl, rfl, rfl, ?_⟩
  · refine ⟨"You are a helpful medical information AI. " ++
      "A user's brain scan analysis has indicated a potential '",
      "'. The user is now asking a follow-up question." ++ " " ++ promptTail q, ?_⟩
    simp only [buildPrompt, promptContext, contextForFindings, promptTail, String.append_assoc]
  · refine ⟨"You are a helpful medical information AI. " ++ contextForFindings (x :: xs) ++
      " " ++
      "Answer their question in a clear, simple, and reassuring tone. Provide general information only.\n\nUser's Question: '",
      "'", ?_⟩
    simp only [buildPrompt, promptContext, contextForFindings, promptTail, String.append_assoc]
